import Mathlib

/-
Verification of the payeasy rent-escrow contract unit
(src/contracts/rent-escrow/src/lib.rs, testutils.rs, test.rs).

The contract module exposes a single entry point `hello` that returns the
constant short symbol "Hello".  The test harness `setup_test_env`
constructs an isolated Environment, enables mock authorization, registers
the contract, builds a typed client and generates a synthetic caller
address.  The Environment itself is host-SDK code (an external
collaborator per the spec); its operations are modelled here from the
spec's abstract interface.
-/

namespace PayEasy

/-- A character admissible in a short symbol: the host's symbol alphabet
is letters, digits and underscore. -/
def symbolCharOk (c : Char) : Bool :=
  c.isAlphanum || c == '_'

/-- Modelled from the spec: the host encoding of short symbolic
identifiers admits at most 9 characters, all drawn from the symbol
alphabet. -/
def validShortSymbol (s : String) : Bool :=
  s.length ≤ 9 && s.data.all symbolCharOk

/-- A Symbol (Token): an immutable short identifier value with value-based
equality, as used for both the call argument and the return value. -/
structure Symbol where
  str : String
deriving DecidableEq, Repr

/-- Modelled from the spec: the host's short-symbol constructor
(`symbol_short!`) — constructing the interned symbol fails at the encoding
layer unless the text satisfies the short-symbol limits. -/
def symbolShort (s : String) : Option Symbol :=
  if validShortSymbol s then some (Symbol.mk s) else none

/-- An Address: an opaque caller identifier generated by the Environment;
no internal structure is exposed to the contract module. -/
structure Address where
  id : Nat
deriving DecidableEq, Repr

/-- Modelled from the spec: a generated Address has a structurally valid
external string representation (a tag character followed by the decimal
form of its identifier). -/
def Address.repr (a : Address) : String :=
  String.mk ('G' :: (Nat.repr a.id).data)

/-- The Environment: process-scoped simulated ledger state — a ledger
sequence number, the authorization-bypass flag, the table of registered
contract identifiers, and counters for identifier generation.  Modelled
from the spec: the Environment is the host sandbox, consumed through
register / mock_all_auths / generate_address / ledger_sequence. -/
structure Env where
  ledgerSequence : Nat
  mockAuths : Bool
  registrations : List Nat
  nextContractId : Nat
  nextAddressId : Nat
deriving DecidableEq, Repr

/-- Modelled from the spec: `Environment::new()` constructs isolated
ledger state with sequence 0, no bypass, and no registrations. -/
def Env.default : Env :=
  Env.mk 0 false [] 0 0

/-- Modelled from the spec: `mock_all_auths` enables the
authorization-bypass flag; every later call on this instance is treated as
pre-authorized. -/
def Env.mockAllAuths (e : Env) : Env :=
  { e with mockAuths := true }

/-- Modelled from the spec: `register_contract` installs the contract
module under a fresh Environment-assigned identifier and returns it. -/
def Env.registerContract (e : Env) : Env × Nat :=
  ({ e with registrations := e.nextContractId :: e.registrations,
            nextContractId := e.nextContractId + 1 },
   e.nextContractId)

/-- Modelled from the spec: `Address::generate` produces a fresh
synthetic, structurally valid account identifier. -/
def Address.generate (e : Env) : Env × Address :=
  ({ e with nextAddressId := e.nextAddressId + 1 }, Address.mk e.nextAddressId)

/-- The constant response token of the entry point: `symbol_short!("Hello")`
in src/contracts/rent-escrow/src/lib.rs. -/
def helloToken : Symbol :=
  Symbol.mk "Hello"

/-- The contract entry point (src/contracts/rent-escrow/src/lib.rs,
`RentContract::hello`): both the environment handle and the input token
are unused; the constant token is returned. -/
def RentContract.hello (_env : Env) (_to : Symbol) : Symbol :=
  helloToken

/-- The addresses whose authorization `hello` requires: none — the body of
`RentContract::hello` performs no `require_auth`. -/
def helloRequiredAuths : List Address :=
  []

/-- Modelled from the spec: the dispatch layer's authorization check — a
call is admitted when the bypass flag is set or the entry point requires
no authorization. -/
def authSatisfied (e : Env) (required : List Address) : Bool :=
  e.mockAuths || required.isEmpty

/-- Failure modes of the Environment's generic invocation facility. -/
inductive InvokeError where
  | notRegistered
  | unauthorized
deriving DecidableEq, Repr

/-- The typed Client: a thin handle bound to a contract identifier within
an Environment (src/contracts/rent-escrow/src/testutils.rs,
`RentContractClient`). -/
structure RentContractClient where
  contractId : Nat
deriving DecidableEq, Repr

/-- Modelled from the spec: the invocation path through the Client — the
Environment dispatches `hello` at the bound contract identifier for a
caller context, after checking registration and authorization; the
resulting Environment state is returned alongside the response token. -/
def invokeHello (e : Env) (c : RentContractClient) (_caller : Address)
    (t : Symbol) : Except InvokeError (Env × Symbol) :=
  if c.contractId ∈ e.registrations then
    if authSatisfied e helloRequiredAuths then
      Except.ok (e, RentContract.hello e t)
    else
      Except.error InvokeError.unauthorized
  else
    Except.error InvokeError.notRegistered

/-- The test harness (src/contracts/rent-escrow/src/testutils.rs,
`setup_test_env`): construct a default Environment, enable mock
authorization, register the contract, build the client, generate a caller
address, and return the triple. -/
def setup_test_env : Env × Address × RentContractClient :=
  let env := Env.default
  let env := env.mockAllAuths
  let reg := env.registerContract
  let env := reg.1
  let contract_id := reg.2
  let client := RentContractClient.mk contract_id
  let gen := Address.generate env
  let env := gen.1
  let user := gen.2
  (env, user, client)

/-- The harness algorithm exactly as the spec states it (section 4.2,
steps 1 through 6, sequential with no branching): new Environment, enable
mock authorization, register obtaining an assigned identifier, bind the
typed Client, generate a synthetic Address, return the triple. -/
def setupTestEnvSpec : Env × Address × RentContractClient :=
  let e1 := Env.default
  let e2 := e1.mockAllAuths
  let step3 := e2.registerContract
  let client := RentContractClient.mk step3.2
  let step5 := Address.generate step3.1
  (step5.1, step5.2, client)

/-- A world of two coexisting Environments; invocation through the first
Environment's client, leaving the second untouched exactly when the
dispatch touches only its own Environment. -/
def invokeLeft (p : Env × Env) (c : RentContractClient) (a : Address)
    (t : Symbol) : (Env × Env) × Option Symbol :=
  match invokeHello p.1 c a t with
  | Except.ok q => ((q.1, p.2), some q.2)
  | Except.error _ => (p, none)

/-- Claim C1: for every Token value t supplied as the argument, the entry
point `hello` returns the constant Token "Hello"; the output is
independent of the input value. -/
theorem hello_fixed_response (e : Env) (t : Symbol) :
    RentContract.hello e t = Symbol.mk "Hello" := rfl

/-- Claim C2: for the Client returned by `setup_test_env`, every
invocation of its `hello` method succeeds (never an error) and yields the
fixed Token "Hello", for any Symbol argument and any caller context. -/
theorem client_hello_always_succeeds (t : Symbol) (a : Address) :
    invokeHello setup_test_env.1 setup_test_env.2.2 a t
      = Except.ok (setup_test_env.1, helloToken) := rfl

/-- Claim C3: a freshly constructed Environment reports ledger sequence 0;
in particular the Environment returned by `setup_test_env` reports ledger
sequence 0. -/
theorem fresh_env_sequence_zero :
    Env.default.ledgerSequence = 0 ∧ setup_test_env.1.ledgerSequence = 0 :=
  ⟨rfl, rfl⟩

/-- Claim C4: invoking `hello` has no side effects — every successful
invocation returns the input Environment unchanged, so in particular the
ledger sequence number is unchanged. -/
theorem hello_no_side_effects (e : Env) (c : RentContractClient)
    (a : Address) (t : Symbol) (p : Env × Symbol)
    (h : invokeHello e c a t = Except.ok p) : p.1 = e := by
  unfold invokeHello at h
  split at h
  · split at h
    · injection h with h2
      subst h2
      rfl
    · cases h
  · cases h

/-- Witness for claim C4 at the harness Environment and the token "Dev". -/
theorem hello_no_side_effects_witness :
    invokeHello setup_test_env.1 setup_test_env.2.2 setup_test_env.2.1
        (Symbol.mk "Dev") = Except.ok (setup_test_env.1, helloToken) ∧
      (setup_test_env.1, helloToken).1 = setup_test_env.1 :=
  ⟨rfl,
   hello_no_side_effects setup_test_env.1 setup_test_env.2.2
     setup_test_env.2.1 (Symbol.mk "Dev") (setup_test_env.1, helloToken) rfl⟩

/-- Claim C5: with mock-all-authorizations enabled on the Environment (as
`setup_test_env` does, with the contract registered), invoking `hello`
succeeds for every caller Address, including addresses never explicitly
authorized. -/
theorem mock_auth_hello_succeeds (e : Env) (c : RentContractClient)
    (a : Address) (t : Symbol) (hm : e.mockAuths = true)
    (hr : c.contractId ∈ e.registrations) :
    invokeHello e c a t = Except.ok (e, helloToken) := by
  unfold invokeHello
  rw [if_pos hr]
  have hs : authSatisfied e helloRequiredAuths = true := by
    simp [authSatisfied, helloRequiredAuths, hm]
  rw [if_pos hs]
  rfl

/-- Witness for claim C5 at the harness Environment, a never-authorized
address, and the token "Dev". -/
theorem mock_auth_hello_succeeds_witness :
    setup_test_env.1.mockAuths = true ∧
      setup_test_env.2.2.contractId ∈ setup_test_env.1.registrations ∧
      invokeHello setup_test_env.1 setup_test_env.2.2 (Address.mk 7)
        (Symbol.mk "Dev") = Except.ok (setup_test_env.1, helloToken) :=
  ⟨rfl, by decide,
   mock_auth_hello_succeeds setup_test_env.1 setup_test_env.2.2
     (Address.mk 7) (Symbol.mk "Dev") rfl (by decide)⟩

/-- Claim C6: `setup_test_env` performs exactly the sequence the spec
states — new Environment, enable mock authorization, register obtaining an
Environment-assigned identifier, bind the typed Client, generate a
synthetic Address — and returns the triple (Environment, Address,
Client). -/
theorem setup_matches_spec_algorithm : setup_test_env = setupTestEnvSpec :=
  rfl

/-- Claim C7: two invocations of the harness produce independent
Environments: invocation through one Environment never changes the other
coexisting Environment, each harness Environment starts at ledger sequence
0, and it is still 0 after an invocation on it. -/
theorem independent_environments :
    (∀ (p : Env × Env) (c : RentContractClient) (a : Address) (t : Symbol),
        ((invokeLeft p c a t).1).2 = p.2) ∧
      setup_test_env.1.ledgerSequence = 0 ∧
      (∀ (a : Address) (t : Symbol),
        ((invokeLeft (setup_test_env.1, setup_test_env.1)
            setup_test_env.2.2 a t).1).1.ledgerSequence = 0) := by
  refine ⟨?_, rfl, ?_⟩
  · intro p c a t
    cases h : invokeHello p.1 c a t <;> simp [invokeLeft, h]
  · intro a t
    rfl

/-- Claim C8: every Address returned by the Environment's generation
facility has a non-empty external string representation. -/
theorem generated_address_nonempty (e : Env) :
    0 < (Address.repr (Address.generate e).2).length :=
  Nat.succ_pos _

/-- Claim C9: `hello` is a constant function of all of its arguments — for
any two Environments and any two input Symbols the returned Symbols are
equal. -/
theorem hello_constant_function (e1 e2 : Env) (t1 t2 : Symbol) :
    RentContract.hello e1 t1 = RentContract.hello e2 t2 := rfl

/-- Claim C10: the constant response "Hello" satisfies the host's
short-symbol encoding limit, so encoding the value returned by `hello`
never fails at the encoding layer. -/
theorem hello_token_encodable :
    (∀ (e : Env) (t : Symbol),
        symbolShort (RentContract.hello e t).str
          = some (RentContract.hello e t)) ∧
      validShortSymbol helloToken.str = true :=
  ⟨fun _ _ => rfl, rfl⟩

end PayEasy
